import Mathlib

/-!
Verification of the fracture deformity transform in
src/src/components/FractureVisualization.tsx.

The component builds two frustum-shaped bone segments and places the
distal segment according to six clinical measurement fields, rotating
about a transient pivot placed at the fracture site.

The scene-graph semantics the component relies on (three.js) are
embedded explicitly from the library behaviour the code invokes:

* an Object3D rotation is an Euler triple with the default order XYZ;
  Matrix4.makeRotationFromEuler turns it into the matrix whose nine
  entries are written out in `eulerXYZ` below (they coincide with the
  product Rx * Ry * Rz, proved in the C2 theorem);
* Object3D.attach reparents an object while preserving its world
  transform (`attachLocal` computes the new local pose, `toWorld`
  composes a local pose with the parent world pose);
* a freshly constructed Mesh / Object3D has position (0,0,0) and
  identity rotation.

Numbers are embedded as real numbers.  JavaScript NaN, which matters
only for the form-state layer (parseFloat fallback), is modelled there
by `Option ℝ` with `none` standing for NaN.
-/

open Real

noncomputable section

/-- Three-component real vector standing for a three.js Vector3. -/
@[ext]
structure Vec3 where
  x : ℝ
  y : ℝ
  z : ℝ

instance : Add Vec3 := ⟨fun a b => ⟨a.x + b.x, a.y + b.y, a.z + b.z⟩⟩
instance : Sub Vec3 := ⟨fun a b => ⟨a.x - b.x, a.y - b.y, a.z - b.z⟩⟩

theorem Vec3.add_def (a b : Vec3) : a + b = ⟨a.x + b.x, a.y + b.y, a.z + b.z⟩ := rfl

theorem Vec3.sub_def (a b : Vec3) : a - b = ⟨a.x - b.x, a.y - b.y, a.z - b.z⟩ := rfl

/-- Three-by-three real matrix, row major: mIJ is row I, column J. -/
@[ext]
structure Mat3 where
  m00 : ℝ
  m01 : ℝ
  m02 : ℝ
  m10 : ℝ
  m11 : ℝ
  m12 : ℝ
  m20 : ℝ
  m21 : ℝ
  m22 : ℝ

/-- Matrix applied to a column vector. -/
def Mat3.mulVec (A : Mat3) (v : Vec3) : Vec3 :=
  ⟨A.m00 * v.x + A.m01 * v.y + A.m02 * v.z,
   A.m10 * v.x + A.m11 * v.y + A.m12 * v.z,
   A.m20 * v.x + A.m21 * v.y + A.m22 * v.z⟩

/-- Matrix product. -/
def Mat3.mul (A B : Mat3) : Mat3 :=
  ⟨A.m00 * B.m00 + A.m01 * B.m10 + A.m02 * B.m20,
   A.m00 * B.m01 + A.m01 * B.m11 + A.m02 * B.m21,
   A.m00 * B.m02 + A.m01 * B.m12 + A.m02 * B.m22,
   A.m10 * B.m00 + A.m11 * B.m10 + A.m12 * B.m20,
   A.m10 * B.m01 + A.m11 * B.m11 + A.m12 * B.m21,
   A.m10 * B.m02 + A.m11 * B.m12 + A.m12 * B.m22,
   A.m20 * B.m00 + A.m21 * B.m10 + A.m22 * B.m20,
   A.m20 * B.m01 + A.m21 * B.m11 + A.m22 * B.m21,
   A.m20 * B.m02 + A.m21 * B.m12 + A.m22 * B.m22⟩

instance : Mul Mat3 := ⟨Mat3.mul⟩

theorem Mat3.mul_def (A B : Mat3) : A * B = A.mul B := rfl

/-- Identity matrix, the rotation of a freshly constructed object. -/
def Mat3.id : Mat3 := ⟨1, 0, 0, 0, 1, 0, 0, 0, 1⟩

/-- Transpose; for a rotation matrix this is its inverse. -/
def Mat3.transpose (A : Mat3) : Mat3 :=
  ⟨A.m00, A.m10, A.m20, A.m01, A.m11, A.m21, A.m02, A.m12, A.m22⟩

/-- Rotation about the x axis by t radians. -/
def rotX (t : ℝ) : Mat3 :=
  ⟨1, 0, 0,
   0, Real.cos t, -Real.sin t,
   0, Real.sin t, Real.cos t⟩

/-- Rotation about the y axis by t radians. -/
def rotY (t : ℝ) : Mat3 :=
  ⟨Real.cos t, 0, Real.sin t,
   0, 1, 0,
   -Real.sin t, 0, Real.cos t⟩

/-- Rotation about the z axis by t radians. -/
def rotZ (t : ℝ) : Mat3 :=
  ⟨Real.cos t, -Real.sin t, 0,
   Real.sin t, Real.cos t, 0,
   0, 0, 1⟩

/-- Rotation matrix three.js builds from an Euler triple with the
default order XYZ: the nine entries are transcribed from
Matrix4.makeRotationFromEuler (column-major te indices turned into
row-major entries). -/
def eulerXYZ (ex ey ez : ℝ) : Mat3 :=
  ⟨Real.cos ey * Real.cos ez,
   -(Real.cos ey * Real.sin ez),
   Real.sin ey,
   Real.cos ex * Real.sin ez + Real.sin ex * Real.cos ez * Real.sin ey,
   Real.cos ex * Real.cos ez - Real.sin ex * Real.sin ez * Real.sin ey,
   -(Real.sin ex * Real.cos ey),
   Real.sin ex * Real.sin ez - Real.cos ex * Real.cos ez * Real.sin ey,
   Real.sin ex * Real.cos ez + Real.cos ex * Real.sin ez * Real.sin ey,
   Real.cos ex * Real.cos ey⟩

/-- The nine measurement fields of the form state, as the deformity
transform consumes them (plain numbers; the NaN-coercion of the form
layer is modelled separately below). Field names follow the source. -/
@[ext]
structure Measurements where
  fractureLength : ℝ
  fracturePosition : ℝ
  medialDisplacement : ℝ
  anteriorDisplacement : ℝ
  proximalDisplacement : ℝ
  valgusAngulation : ℝ
  anteversionAngulation : ℝ
  rotationalAngulation : ℝ

/-- Degrees to radians, from the toRad helper in the source. -/
def toRad (deg : ℝ) : ℝ := deg * Real.pi / 180

/-- Length of the distal segment, computed in the source as
fractureLength - fracturePosition. -/
def distalLength (m : Measurements) : ℝ :=
  m.fractureLength - m.fracturePosition

/-- Frustum data of one bone mesh: the CylinderGeometry arguments
(top radius, bottom radius, height) together with the y coordinate the
mesh is positioned at (its x and z stay 0). -/
structure Frustum where
  radiusTop : ℝ
  radiusBottom : ℝ
  length : ℝ
  centerY : ℝ

/-- Result of updateBoneGeometries: both bone meshes. -/
structure BoneGeometries where
  proximal : Frustum
  distal : Frustum

/-- Base radius of the bone meshes, the const radius = 15 in
updateBoneGeometries. -/
def boneRadius : ℝ := 15

/-- Embedding of updateBoneGeometries: removes the old meshes and
creates fresh ones.  Proximal: CylinderGeometry(radius, radius * 0.9,
fracturePosition) at y = -fracturePosition / 2.  Distal:
CylinderGeometry(radius * 0.9, radius * 0.8, distalLength) at
y = -fracturePosition - distalLength / 2.  All arithmetic is
unconditional; the embedding is a total function. -/
def updateBoneGeometries (m : Measurements) : BoneGeometries :=
  ⟨⟨boneRadius, boneRadius * 0.9, m.fracturePosition,
    -m.fracturePosition / 2⟩,
   ⟨boneRadius * 0.9, boneRadius * 0.8, distalLength m,
    -m.fracturePosition - distalLength m / 2⟩⟩

/-- World pose of a scene object: position and rotation. -/
@[ext]
structure Pose where
  position : Vec3
  rotation : Mat3

/-- World poses of the two bone meshes after one run of the
measurements effect. -/
@[ext]
structure SceneState where
  proximal : Pose
  distal : Pose

/-- Local pose of a child after Object3D.attach to a parent with the
given world pose: attach preserves the world transform, so the local
pose is the world pose premultiplied by the inverse (transpose) of the
parent rotation after subtracting the parent position. -/
def attachLocal (parent child : Pose) : Pose :=
  ⟨parent.rotation.transpose.mulVec (child.position - parent.position),
   parent.rotation.transpose * child.rotation⟩

/-- World pose of a child with the given local pose under a parent
with the given world pose. -/
def toWorld (parent childLocal : Pose) : Pose :=
  ⟨parent.position + parent.rotation.mulVec childLocal.position,
   parent.rotation * childLocal.rotation⟩

/-- The rotation the measurements effect puts on the pivot: the three
assignments pivot.rotation.z = toRad valgus, pivot.rotation.x =
toRad anteversion, pivot.rotation.y = toRad rotational set the three
components of the Euler triple, which three.js composes with its
default order XYZ. -/
def pivotRotation (m : Measurements) : Mat3 :=
  eulerXYZ (toRad m.anteversionAngulation)
    (toRad m.rotationalAngulation)
    (toRad m.valgusAngulation)

/-- Pose the distal mesh is reset to at the start of the effect:
position (0, -fracturePosition - distalLength / 2, 0), zero
rotation. -/
def distalReset (m : Measurements) : Pose :=
  ⟨⟨0, -m.fracturePosition - distalLength m / 2, 0⟩, Mat3.id⟩

/-- Initial pose of the pivot: position (0, -fracturePosition, 0) and
the identity rotation of a fresh Object3D. -/
def pivotInitial (m : Measurements) : Pose :=
  ⟨⟨0, -m.fracturePosition, 0⟩, Mat3.id⟩

/-- The three displacement additions performed on the distal local
position while it sits under the pivot: position.x +=
medialDisplacement, position.z += anteriorDisplacement, position.y -=
proximalDisplacement. -/
def displace (m : Measurements) (p : Pose) : Pose :=
  ⟨⟨p.position.x + m.medialDisplacement,
    p.position.y - m.proximalDisplacement,
    p.position.z + m.anteriorDisplacement⟩,
   p.rotation⟩

/-- Embedding of the measurements effect (the applyDeformity routine):
rebuild the geometry (fresh meshes, overwriting any previous state),
reset the distal mesh to its anatomical pose, attach it to a pivot at
the fracture site, rotate the pivot, add the displacements to the
distal local position, and attach the distal mesh back to the scene
(the scene sits at the origin with identity rotation, so its world
pose equals the pivot world pose composed with the distal local pose).
The previous scene state is fully overwritten, exactly as in the
source, so the parameter s is not consulted. -/
def applyDeformity (m : Measurements) (_s : SceneState) : SceneState :=
  ⟨⟨⟨0, (updateBoneGeometries m).proximal.centerY, 0⟩, Mat3.id⟩,
   toWorld ⟨(pivotInitial m).position, pivotRotation m⟩
     (displace m (attachLocal (pivotInitial m) (distalReset m)))⟩

/-- A run of the component: the measurements effect fires once per
measurement change, folding over the history of measurement sets. -/
def runHistory (history : List Measurements) (s : SceneState) : SceneState :=
  history.foldl (fun st m => applyDeformity m st) s

/-- Keys of the measurement form fields, in source order. -/
inductive MeasKey where
  | fractureLength
  | fracturePosition
  | medialDisplacement
  | anteriorDisplacement
  | proximalDisplacement
  | valgusAngulation
  | anteversionAngulation
  | rotationalAngulation
  deriving DecidableEq

/-- JavaScript number as the form layer sees it: none models NaN (the
result of a failed parseFloat), some x a numeric value. -/
abbrev JSNum := Option ℝ

/-- The expression parseFloat(value) with the short-circuit fallback,
written in the source as parseFloat(value) || 0: NaN is falsy in
JavaScript and falls back to the number 0; a numeric parse keeps its
value (a parsed 0 is also falsy, but the fallback it triggers is the
same number 0, so the value is kept either way). -/
def parseOrZero : JSNum → JSNum
  | none => some 0
  | some x => some x

/-- Form state: the value held for each measurement key. -/
abbrev MeasurementsJS := MeasKey → JSNum

/-- Embedding of handleMeasurementChange: the edited key gets the
coerced parse result, every other key keeps its previous value. -/
def handleMeasurementChange (key : MeasKey) (parsed : JSNum)
    (prev : MeasurementsJS) : MeasurementsJS :=
  fun k => if k = key then parseOrZero parsed else prev k

/-- The initialMeasurements object of the source. -/
def initialMeasurementsJS : MeasurementsJS := fun k =>
  match k with
  | .fractureLength => some 300
  | .fracturePosition => some 150
  | _ => some 0

/-- A sequence of form edits, each carrying the key edited and the
parseFloat result of the entered string. -/
def applyEdits (edits : List (MeasKey × JSNum)) (m : MeasurementsJS) :
    MeasurementsJS :=
  edits.foldl (fun st e => handleMeasurementChange e.1 e.2 st) m

/-- Rotation composition in the order the specification words it: the
single-axis rotation about Z (valgus) first, then the one about X
(anteversion), then the one about Y (long-axis rotation); as matrices
acting on column vectors this is rotY * rotX * rotZ.  This definition
follows the words of the specification, to be compared against
pivotRotation, which follows the source. -/
def claimRotationZXY (m : Measurements) : Mat3 :=
  rotY (toRad m.rotationalAngulation) *
    (rotX (toRad m.anteversionAngulation) * rotZ (toRad m.valgusAngulation))

/-- Small arithmetic fact used to evaluate the trigonometry at the
sample angle of 90 degrees. -/
theorem ninety_toRad : toRad 90 = Real.pi / 2 := by
  unfold toRad; ring

theorem sin_toRad_ninety : Real.sin (toRad 90) = 1 := by
  rw [ninety_toRad]; exact Real.sin_pi_div_two

theorem cos_toRad_ninety : Real.cos (toRad 90) = 0 := by
  rw [ninety_toRad]; exact Real.cos_pi_div_two

theorem toRad_zero : toRad 0 = 0 := by
  unfold toRad; ring

/-- Sample measurement set: the initial values with no deformity. -/
def mZero : Measurements := ⟨300, 150, 0, 0, 0, 0, 0, 0⟩

/-- Sample measurement set: pure medial displacement of 10. -/
def mMedialTen : Measurements := ⟨300, 150, 10, 0, 0, 0, 0, 0⟩

/-- Sample measurement set: long-axis rotation of 90 degrees together
with anterior displacement of 10. -/
def mRotatedAnterior : Measurements := ⟨300, 150, 0, 10, 0, 0, 0, 90⟩

/-- Sample measurement set: all three angulations at 90 degrees. -/
def mAllNinety : Measurements := ⟨300, 150, 0, 0, 0, 90, 90, 90⟩

/-- Sample measurement set: the fracture at the very distal end. -/
def mFractureAtEnd : Measurements := ⟨300, 300, 0, 0, 0, 0, 0, 0⟩

/-- Sample measurement set: fracture position beyond the bone length. -/
def mBeyondEnd : Measurements := ⟨300, 400, 0, 0, 0, 0, 0, 0⟩

/-- Sample scene state to feed the transform, whose previous content
is overwritten by it. -/
def sAny : SceneState :=
  ⟨⟨⟨0, 0, 0⟩, Mat3.id⟩, ⟨⟨0, 0, 0⟩, Mat3.id⟩⟩

/-- C3: applying the deformity transform twice in succession with the
same measurement set leaves the scene in exactly the state of applying
it once: each application rebuilds the meshes and resets the distal
pose, consulting nothing of the previous scene state. -/
theorem C3_apply_deformity_idempotent :
    ∀ (m : Measurements) (s : SceneState),
      applyDeformity m (applyDeformity m s) = applyDeformity m s :=
  fun _ _ => rfl

/-- C8: the transform is deterministic and history free: two runs that
end with the same measurement set produce identical world poses for
both bone meshes, whatever measurement sets were applied before and
whatever scene state each run started from. -/
theorem C8_history_free_deterministic :
    ∀ (m : Measurements) (h1 h2 : List Measurements) (s1 s2 : SceneState),
      runHistory (h1 ++ [m]) s1 = runHistory (h2 ++ [m]) s2 := by
  intro m h1 h2 s1 s2
  simp only [runHistory, List.foldl_append, List.foldl_cons, List.foldl_nil]
  rfl

/-- C9: the proximal mesh is untouched by the six displacement and
angulation fields: its pose after the transform is position
(0, -fracturePosition / 2, 0) with identity rotation, a function of
fracturePosition alone. -/
theorem C9_proximal_pose_fixed :
    ∀ (m : Measurements) (s : SceneState),
      (applyDeformity m s).proximal =
        ⟨⟨0, -(m.fracturePosition / 2), 0⟩, Mat3.id⟩ := by
  intro m s
  simp [applyDeformity, updateBoneGeometries, neg_div]

/-- C5: the proximal mesh is a frustum of length fracturePosition
tapering from the base radius to 0.9 of it, centered at
y = -fracturePosition / 2; the distal mesh is a frustum of length
fractureLength - fracturePosition tapering from 0.9 to 0.8 of the base
radius, centered at y = -(fracturePosition + distalLength / 2); for
fractureLength 300 and fracturePosition 150 both lengths are 150, and
for fracturePosition 300 the distal length is 0. -/
theorem C5_geometry_split :
    (∀ m : Measurements,
        ((updateBoneGeometries m).proximal.length = m.fracturePosition ∧
         (updateBoneGeometries m).proximal.radiusTop = boneRadius ∧
         (updateBoneGeometries m).proximal.radiusBottom = 0.9 * boneRadius ∧
         (updateBoneGeometries m).proximal.centerY =
           -(m.fracturePosition / 2)) ∧
        ((updateBoneGeometries m).distal.length =
           m.fractureLength - m.fracturePosition ∧
         (updateBoneGeometries m).distal.radiusTop = 0.9 * boneRadius ∧
         (updateBoneGeometries m).distal.radiusBottom = 0.8 * boneRadius ∧
         (updateBoneGeometries m).distal.centerY =
           -(m.fracturePosition +
             (m.fractureLength - m.fracturePosition) / 2))) ∧
    (updateBoneGeometries mZero).proximal.length = 150 ∧
    (updateBoneGeometries mZero).distal.length = 150 ∧
    (updateBoneGeometries mFractureAtEnd).distal.length = 0 := by
  refine ⟨fun m => ⟨⟨rfl, rfl, ?_, ?_⟩, rfl, ?_, ?_, ?_⟩, ?_, ?_, ?_⟩ <;>
    simp [updateBoneGeometries, distalLength, boneRadius, mZero,
      mFractureAtEnd] <;>
    ring

/-- C6: updateBoneGeometries is a total function: for every
measurement set, also when fracturePosition exceeds fractureLength,
the distal length field is fractureLength - fracturePosition, negative
in that case rather than an error. -/
theorem C6_no_failure_distal_length :
    (∀ m : Measurements,
        (updateBoneGeometries m).distal.length =
          m.fractureLength - m.fracturePosition) ∧
    (updateBoneGeometries mBeyondEnd).distal.length = -100 ∧
    (updateBoneGeometries mBeyondEnd).distal.length < 0 := by
  refine ⟨fun m => rfl, ?_, ?_⟩ <;>
    norm_num [updateBoneGeometries, distalLength, mBeyondEnd]

/-- C7: an edit whose parseFloat result is NaN (any string that does
not parse as a number, the empty string included) stores exactly the
number 0 in the edited field of the next measurement set; the update
is total, never rejecting the edit. -/
theorem C7_unparseable_edit_stores_zero :
    ∀ (k : MeasKey) (prev : MeasurementsJS),
      handleMeasurementChange k none prev k = some 0 := by
  intro k prev
  simp [handleMeasurementChange, parseOrZero]

/-- Auxiliary invariant for C10: one pass of applyEdits keeps every
field numeric, because the stored value is always parseOrZero of the
parse result, which is never NaN. -/
theorem applyEdits_keeps_numeric (edits : List (MeasKey × JSNum))
    (m : MeasurementsJS) (h : ∀ k, m k ≠ none) :
    ∀ k, applyEdits edits m k ≠ none := by
  induction edits generalizing m with
  | nil => exact h
  | cons e rest ih =>
    intro k
    refine ih (handleMeasurementChange e.1 e.2 m) ?_ k
    intro k2
    unfold handleMeasurementChange
    by_cases hk : k2 = e.1
    · rw [if_pos hk]
      cases h2 : e.2 <;> simp [parseOrZero]
    · rw [if_neg hk]
      exact h k2

/-- C10: after any sequence of edits starting from the initial
measurements, no field is ever NaN: a parse yielding NaN is replaced
by 0 before being stored. -/
theorem C10_no_nan_fields :
    ∀ (edits : List (MeasKey × JSNum)) (k : MeasKey),
      applyEdits edits initialMeasurementsJS k ≠ none := by
  intro edits k
  refine applyEdits_keeps_numeric edits initialMeasurementsJS ?_ k
  intro k2
  cases k2 <;> simp [initialMeasurementsJS]

/-- C4: with all six displacement and angulation fields at 0 the distal
mesh ends at its undisplaced anatomical pose: position
(0, -(fracturePosition + distalLength / 2), 0) with distalLength equal
to fractureLength - fracturePosition, and identity rotation. -/
theorem C4_zero_deformity_identity :
    ∀ (m : Measurements) (s : SceneState),
      m.medialDisplacement = 0 → m.anteriorDisplacement = 0 →
      m.proximalDisplacement = 0 → m.valgusAngulation = 0 →
      m.anteversionAngulation = 0 → m.rotationalAngulation = 0 →
      (applyDeformity m s).distal =
        ⟨⟨0, -(m.fracturePosition +
            (m.fractureLength - m.fracturePosition) / 2), 0⟩, Mat3.id⟩ := by
  intro m s h1 h2 h3 h4 h5 h6
  simp [applyDeformity, toWorld, displace, attachLocal, pivotInitial,
    distalReset, pivotRotation, eulerXYZ, Mat3.mulVec, Mat3.transpose,
    Mat3.mul_def, Mat3.mul, Mat3.id, Vec3.sub_def, Vec3.add_def,
    h1, h2, h3, h4, h5, h6, toRad_zero, Real.sin_zero, Real.cos_zero,
    distalLength, Pose.ext_iff, Vec3.ext_iff, Mat3.ext_iff]
  ring

/-- C4 witness: at the initial measurement set the distal mesh sits at
(0, -225, 0) with identity rotation. -/
theorem C4_zero_deformity_identity_witness :
    (applyDeformity mZero sAny).distal =
      ⟨⟨0, -(mZero.fracturePosition +
          (mZero.fractureLength - mZero.fracturePosition) / 2), 0⟩,
       Mat3.id⟩ :=
  C4_zero_deformity_identity mZero sAny rfl rfl rfl rfl rfl rfl

/-- C1: the three linear displacements act in the post-rotation frame.
With all angulations 0 and medialDisplacement 10 the distal world x is
10; with only a long-axis rotation of 90 degrees and
anteriorDisplacement 10, the final world position is the anatomical
position offset by 10 along x, the anterior displacement redirected by
the rotation, with no offset along the lab-frame z axis. -/
theorem C1_displacement_in_post_rotation_frame :
    (∀ (m : Measurements) (s : SceneState),
        m.valgusAngulation = 0 → m.anteversionAngulation = 0 →
        m.rotationalAngulation = 0 → m.medialDisplacement = 10 →
        (applyDeformity m s).distal.position.x = 10) ∧
    (∀ (m : Measurements) (s : SceneState),
        m.valgusAngulation = 0 → m.anteversionAngulation = 0 →
        m.rotationalAngulation = 90 → m.medialDisplacement = 0 →
        m.proximalDisplacement = 0 → m.anteriorDisplacement = 10 →
        (applyDeformity m s).distal.position =
          ⟨10, -(m.fracturePosition +
              (m.fractureLength - m.fracturePosition) / 2), 0⟩) := by
  constructor
  · intro m s hv ha hr hm
    simp [applyDeformity, toWorld, displace, attachLocal, pivotInitial,
      distalReset, pivotRotation, eulerXYZ, Mat3.mulVec, Mat3.transpose,
      Mat3.mul_def, Mat3.mul, Mat3.id, Vec3.sub_def, Vec3.add_def,
      hv, ha, hr, hm, toRad_zero, Real.sin_zero, Real.cos_zero,
      distalLength]
  · intro m s hv ha hr hm hp hant
    simp [applyDeformity, toWorld, displace, attachLocal, pivotInitial,
      distalReset, pivotRotation, eulerXYZ, Mat3.mulVec, Mat3.transpose,
      Mat3.mul_def, Mat3.mul, Mat3.id, Vec3.sub_def, Vec3.add_def,
      hv, ha, hr, hm, hp, hant, toRad_zero, sin_toRad_ninety,
      cos_toRad_ninety, Real.sin_zero, Real.cos_zero, distalLength,
      Vec3.ext_iff]
    ring

/-- C1 witness: both parts at concrete measurement sets. -/
theorem C1_displacement_in_post_rotation_frame_witness :
    (applyDeformity mMedialTen sAny).distal.position.x = 10 ∧
    (applyDeformity mRotatedAnterior sAny).distal.position =
      ⟨10, -(mRotatedAnterior.fracturePosition +
          (mRotatedAnterior.fractureLength -
            mRotatedAnterior.fracturePosition) / 2), 0⟩ :=
  ⟨C1_displacement_in_post_rotation_frame.1 mMedialTen sAny
      rfl rfl rfl rfl,
   C1_displacement_in_post_rotation_frame.2 mRotatedAnterior sAny
      rfl rfl rfl rfl rfl rfl⟩

/-- C2 counterexample: with all three angulations at 90 degrees, the
rotation the code puts on the pivot differs from the composition of
single-axis rotations applied in the order Z (valgus), then X
(anteversion), then Y (long-axis) that the claim words. -/
theorem C2_counterexample_euler_order :
    pivotRotation mAllNinety ≠ claimRotationZXY mAllNinety := by
  intro h
  have h00 := congrArg Mat3.m00 h
  simp [pivotRotation, claimRotationZXY, eulerXYZ, rotX, rotY, rotZ,
    Mat3.mul_def, Mat3.mul, mAllNinety, sin_toRad_ninety,
    cos_toRad_ninety] at h00

/-- C2 amended: the combined rotation the code applies to the pivot is
the three.js XYZ Euler rotation, which equals the composition of the
three single-axis rotations with the Z (valgus) rotation applied
first, then the Y (long-axis) rotation, then the X (anteversion)
rotation: as matrices acting on column vectors,
rotX * (rotY * rotZ). -/
theorem C2_rotation_is_euler_xyz :
    ∀ m : Measurements,
      pivotRotation m =
        rotX (toRad m.anteversionAngulation) *
          (rotY (toRad m.rotationalAngulation) *
            rotZ (toRad m.valgusAngulation)) := by
  intro m
  ext <;>
    simp [pivotRotation, eulerXYZ, rotX, rotY, rotZ, Mat3.mul_def,
      Mat3.mul] <;>
    ring

end
